import Mathlib

/-!
Shallow embedding of scrape.py (Python-Project-Scraper) and proofs about it.

The repository has a single source file, scrape.py, with two functions:
scrape_product_details (per product page) and scrape_main_page (category walk
plus spreadsheet export).  The HTML library and the HTTP client are black
boxes: a product page is modelled by the texts that the selector calls of
scrape.py extract from it (ProductPage below), and a fetch is modelled by its
outcome.  Python string methods used by the source (strip, replace, in,
split, startswith, join) are modelled over List Char; Python float arithmetic
on price strings is modelled by exact fractions (every concrete value proved
about is exactly representable, so no rounding gap arises).  Python
exceptions are modelled with Except: the source wraps its bodies in
try/except blocks that catch requests.exceptions.RequestException only, so
any other exception (in particular the NameError from the undefined name
identifier on line 30 of scrape.py) escapes.
-/

namespace Scrape

/-! Python string primitives, modelled on lists of characters. -/

/-- Python s.strip(): drop whitespace from both ends. -/
def stripL (l : List Char) : List Char :=
  ((l.dropWhile Char.isWhitespace).reverse.dropWhile Char.isWhitespace).reverse

/-- Python s.strip() on String. -/
def pyStrip (s : String) : String := ⟨stripL s.data⟩

/-- Does pat occur at the head of l? -/
def startsL : List Char → List Char → Bool
  | [], _ => true
  | _ :: _, [] => false
  | p :: ps, c :: cs => p = c && startsL ps cs

/-- Does pat occur somewhere in l (Python substring membership)? -/
def hasSub (pat : List Char) : List Char → Bool
  | [] => pat.isEmpty
  | c :: cs => startsL pat (c :: cs) || hasSub pat cs

/-- Python membership test: sub in s. -/
def pyIn (sub s : String) : Bool := hasSub sub.data s.data

/-- Python s.startswith(pre). -/
def pyStarts (s pre : String) : Bool := startsL pre.data s.data

/-- Python s.replace(pat, rep) for nonempty pat: replace non-overlapping
occurrences left to right.  Fuel is the length of the list, which never runs
out because every step consumes at least one character. -/
def replFuel (pat rep : List Char) : Nat → List Char → List Char
  | _, [] => []
  | 0, l => l
  | n + 1, c :: cs =>
    if startsL pat (c :: cs) then rep ++ replFuel pat rep n ((c :: cs).drop pat.length)
    else c :: replFuel pat rep n cs

/-- Python s.replace(pat, rep).  An empty pattern inserts rep at every gap,
as Python does. -/
def replaceL (pat rep s : List Char) : List Char :=
  match pat with
  | [] => rep ++ s.flatMap (fun c => c :: rep)
  | _ :: _ => replFuel pat rep s.length s

/-- Python s.replace(pat, rep) on String. -/
def pyReplace (s pat rep : String) : String := ⟨replaceL pat.data rep.data s.data⟩

/-- Remainder of l after the first occurrence of pat, if pat occurs. -/
def afterFirst? (pat : List Char) : List Char → Option (List Char)
  | [] => none
  | c :: cs =>
    if startsL pat (c :: cs) then some ((c :: cs).drop pat.length)
    else afterFirst? pat cs

/-- Python s.split(pat, 1)[-1]: the part after the first occurrence of pat,
or the whole string when pat does not occur. -/
def pySplit1After (s pat : String) : String :=
  match afterFirst? pat.data s.data with
  | some r => ⟨r⟩
  | none => s

/-- Python sep.join(xs). -/
def joinL (sep : String) : List String → String
  | [] => ""
  | [x] => x
  | x :: y :: xs => x ++ sep ++ joinL sep (y :: xs)

/-! Python float arithmetic on price strings, as exact fractions.
The denominator is kept positive by construction. -/

/-- An exact fraction num / den standing in for a Python float. -/
structure Frac where
  num : Int
  den : Int
  deriving Repr, DecidableEq

/-- Numeric value of a digit list (most significant first). -/
def digitsToNat (ds : List Char) : Nat := ds.foldl (fun n c => 10 * n + (c.toNat - 48)) 0

/-- Python float(s) on decimal strings: optional sign, integer digits,
optional dot and fraction digits (at least one digit overall); none models
the ValueError raised on anything else.  Exponent forms never occur in the
scraped price texts and are not modelled. -/
def pyFloat? (s : String) : Option Frac :=
  let t := stripL s.data
  let (sgn, t1) :=
    match t with
    | '-' :: r => ((-1 : Int), r)
    | '+' :: r => ((1 : Int), r)
    | r => ((1 : Int), r)
  let ip := t1.takeWhile Char.isDigit
  let rest := t1.dropWhile Char.isDigit
  match rest with
  | [] => if ip.isEmpty then none else some ⟨sgn * digitsToNat ip, 1⟩
  | '.' :: fr =>
    if fr.all Char.isDigit && !(ip.isEmpty && fr.isEmpty) then
      some ⟨sgn * (digitsToNat ip * 10 ^ fr.length + digitsToNat fr), (10 : Int) ^ fr.length⟩
    else none
  | _ => none

/-- Fraction subtraction. -/
def fracSub (a b : Frac) : Frac := ⟨a.num * b.den - b.num * a.den, a.den * b.den⟩

/-- Fraction division, keeping the denominator positive when the divisor is
negative.  Division by a zero numerator is guarded by the caller (the
ZeroDivisionError branch). -/
def fracDiv (a b : Frac) : Frac :=
  if 0 ≤ b.num then ⟨a.num * b.den, a.den * b.num⟩
  else ⟨-(a.num * b.den), a.den * (-b.num)⟩

/-- Fraction times a natural constant. -/
def fracMulNat (a : Frac) (k : Nat) : Frac := ⟨a.num * k, a.den⟩

/-- The fraction one. -/
def fracOne : Frac := ⟨1, 1⟩

/-- Round to the nearest integer, ties to even (the rounding Python round
uses), for a fraction with positive denominator. -/
def roundHalfEvenF (q : Frac) : Int :=
  let fl := q.num.fdiv q.den
  let r2 := 2 * (q.num - q.den * fl)
  if r2 < q.den then fl else if r2 > q.den then fl + 1
  else if fl % 2 = 0 then fl else fl + 1

/-- Python str(x) of the float m / 100 (what str(round(calc, 2)) prints):
integer part, a dot, and the fractional digits with trailing zeros removed
but at least one digit kept. -/
def formatRound2 (m : Int) : String :=
  let sgn := if m < 0 then "-" else ""
  let a := m.natAbs
  let ip := a / 100
  let fr := a % 100
  if fr = 0 then sgn ++ toString ip ++ ".0"
  else if fr % 10 = 0 then sgn ++ toString ip ++ "." ++ toString (fr / 10)
  else if fr < 10 then sgn ++ toString ip ++ ".0" ++ toString fr
  else sgn ++ toString ip ++ "." ++ toString fr

/-! The item-code regular expression of scrape.py line 84:
re.compile of a word boundary, the letter I, six digits, an underscore, a
run of capitals and digits, an underscore, a run of capitals and digits, and
a word boundary, used through re.search (a match anywhere in the string).
Neither character-class run can backtrack usefully: a shorter run than the
maximal one is always followed by a character of the same class, which can
satisfy neither the underscore nor the final word boundary, so maximal munch
is exact and the matcher below is deterministic. -/

/-- A regex word character (the characters of the class backslash-w,
restricted to ASCII as everywhere in this model). -/
def isWordChar (c : Char) : Bool := c.isAlphanum || c = '_'

/-- A capital letter or digit, the character class of the two code tokens. -/
def upperDigit (c : Char) : Bool := c.isUpper || c.isDigit

/-- The final word boundary: end of string or a non-word character next. -/
def boundaryAfter : List Char → Bool
  | [] => true
  | c :: _ => !isWordChar c

/-- Consume exactly six digits. -/
def afterDigits (cs : List Char) : Option (List Char) :=
  if (cs.take 6).length = 6 && (cs.take 6).all Char.isDigit then some (cs.drop 6) else none

/-- Consume one underscore. -/
def afterUnderscore : List Char → Option (List Char)
  | [] => none
  | c :: cs => if c = '_' then some cs else none

/-- Consume a nonempty maximal run of capitals and digits. -/
def afterToken (cs : List Char) : Option (List Char) :=
  if (cs.takeWhile upperDigit).isEmpty then none else some (cs.dropWhile upperDigit)

/-- Does the item-code pattern match starting exactly at the head of l
(word boundary before the head handled by the caller)? -/
def matchCodeAt : List Char → Bool
  | [] => false
  | c :: cs =>
    if c = 'I' then
      match afterDigits cs with
      | none => false
      | some r1 =>
        match afterUnderscore r1 with
        | none => false
        | some r2 =>
          match afterToken r2 with
          | none => false
          | some r3 =>
            match afterUnderscore r3 with
            | none => false
            | some r4 =>
              match afterToken r4 with
              | none => false
              | some r5 => boundaryAfter r5
    else false

/-- re.search: try every position; the initial word boundary holds when the
previous character (none at the start of the string) is not a word
character.  The pattern starts with the word character I, so the boundary
before it amounts exactly to that. -/
def searchCode : Option Char → List Char → Bool
  | _, [] => false
  | prev, c :: cs =>
    ((match prev with
      | none => true
      | some p => !isWordChar p) && matchCodeAt (c :: cs))
    || searchCode (some c) cs

/-- Does the item-code regex of scrape.py line 84 match somewhere in s? -/
def matchesItemCode (s : String) : Bool := searchCode none s.data

/-! Data model.  A ProductPage holds exactly the texts that the
BeautifulSoup selector calls of scrape_product_details extract from the
page HTML; absence of an element is an Option none or an empty list, as the
source distinguishes them. -/

/-- One JSON object of the JSON-LD list, reduced to the two keys the source
reads: the value of the at-type key when present and a string, and the value
of the sku key when present. -/
structure JObj where
  attype : Option String
  sku : Option String
  deriving Repr, DecidableEq

/-- A parsed JSON-LD script body: json.loads either raises
JSONDecodeError, returns a list of objects, or returns some non-list
value. -/
inductive JsonLd where
  | malformed : JsonLd
  | objList : List JObj → JsonLd
  | nonList : JsonLd
  deriving Repr, DecidableEq

/-- A product page as seen through the selector calls of
scrape_product_details:
priceDiv is the text of the first div of class product-price--original;
compareDiv the text of the first div of class product-price--compare;
colorLabels the inner-div texts of the labels whose for-attribute contains
main-color; sizeOptions the texts of the option tags of the first select
(empty when there is no select); descriptionItems the li string texts of the
ul inside the first div of class product-page--description (none when the
div or its ul is missing); jsonLd the parse outcome of the first script of
type application/ld+json (none when there is no such script). -/
structure ProductPage where
  priceDiv : Option String
  compareDiv : Option String
  colorLabels : List String
  sizeOptions : List String
  descriptionItems : Option (List String)
  jsonLd : Option JsonLd
  deriving Repr, DecidableEq

/-- One output row, with the dict keys of scrape.py lines 66 to 76 as
fields, in construction order. -/
structure Entry where
  productUrl : String
  itemName : String
  itemCode : Option String
  itemColor : String
  price : Option String
  originalPrice : String
  discount : String
  availableSizes : String
  outOfStockSizes : String
  deriving Repr, DecidableEq

/-- The Python exceptions that can escape scrape_product_details (its
try/except catches RequestException only). -/
inductive PyError where
  | nameError : PyError
  | attributeError : PyError
  | valueError : PyError
  | zeroDivisionError : PyError
  deriving Repr, DecidableEq

/-! The extraction logic of scrape_product_details, scrape.py lines 9 to 108. -/

/-- The out-of-stock marker substring of scrape.py lines 59 and 60. -/
def outMarker : String := "(Out of stock)"

/-- Lines 55 to 60 applied to one already stripped option text that
contains the color: remove the color, keep the part after the first slash
if any, and strip the out-of-stock marker, returning the final label and
whether the option was classified out of stock. -/
def processSize (item_color size : String) : String × Bool :=
  let s1 := pyStrip (pyReplace size item_color "")
  let s2 := if pyIn "/" s1 then pyStrip (pySplit1After s1 "/") else s1
  if pyIn outMarker s2 then (pyStrip (pyReplace s2 outMarker ""), true) else (s2, false)

/-- The option loop of scrape.py lines 52 to 63 for one color: strip each
option text, skip it unless the color occurs in it, and append its processed
label to the available or the out-of-stock list. -/
def classifySizes (item_color : String) : List String → List String × List String
  | [] => ([], [])
  | opt :: rest =>
    let size := pyStrip opt
    let acc := classifySizes item_color rest
    if pyIn item_color size then
      let pr := processSize item_color size
      if pr.2 then (acc.1, pr.1 :: acc.2) else (pr.1 :: acc.1, acc.2)
    else acc

/-- Lines 33 to 36 of scrape.py: float(oldprice.replace) may raise
ValueError; price.replace raises AttributeError when the price div was
missing (price is Python None); the division raises ZeroDivisionError when
the original price is zero; otherwise the discount string is
str(round((1 - price / oldprice) * 100, 2)). -/
def computeDisc (oldprice : String) (price : Option String) : Except PyError String :=
  match pyFloat? (pyReplace oldprice "AED. " "") with
  | none => .error .valueError
  | some o =>
    match price with
    | none => .error .attributeError
    | some ps =>
      match pyFloat? (pyReplace ps "AED. " "") with
      | none => .error .valueError
      | some p =>
        if o.num = 0 then .error .zeroDivisionError
        else
          .ok (formatRound2 (roundHalfEvenF
            (fracMulNat (fracMulNat (fracSub fracOne (fracDiv p o)) 100) 100)))

/-- Lines 78 to 85 of scrape.py: the first li of the description ul whose
string matches the item-code regex, with text stripped; none when the
description div or its ul is missing or no li matches. -/
def listItemCode (page : ProductPage) : Option String :=
  match page.descriptionItems with
  | none => none
  | some items => (items.find? (fun s => matchesItemCode s)).map pyStrip

/-- Python falsiness of the item_code variable at line 88: None and the
empty string are falsy. -/
def isFalsy : Option String → Bool
  | none => true
  | some s => s.isEmpty

/-- Lines 89 to 97 of scrape.py: the assignment the JSON-LD block performs,
if any.  Some v means item_code is assigned the sku value v (itself
possibly absent) of the first object whose at-type is Product; none means
no assignment happens (no script, malformed JSON, a non-list value, or no
Product object). -/
def jsonLdSku : Option JsonLd → Option (Option String)
  | some (.objList items) =>
    (items.find? (fun o => o.attype = some "Product")).map (fun o => o.sku)
  | _ => none

/-- Lines 78 to 99 of scrape.py: the description list is consulted first;
only when its result is falsy does the JSON-LD assignment, when one
happens, replace it. -/
def resolveItemCode (page : ProductPage) : Option String :=
  let ic := listItemCode page
  if isFalsy ic then (jsonLdSku page.jsonLd).getD ic else ic

/-- Base URL constant of scrape.py line 116. -/
def base_url : String := "https://americanrag.ae"

/-- scrape_product_details, scrape.py lines 9 to 108.  The fetch argument
is the outcome of requests.get plus raise_for_status on the product URL: an
error models a RequestException, which the except clause turns into an
empty entry list.  Everything after a successful fetch follows the source
line by line; the NameError branch is line 30, where the source evaluates
the undefined name identifier when the compare-price div is absent, and
that exception is not caught. -/
def scrape_product_details (fetch : Except Unit ProductPage) (url item_name : String) :
    Except PyError (List Entry) :=
  match fetch with
  | .error _ => .ok []
  | .ok page =>
    let price := page.priceDiv.map pyStrip
    match page.compareDiv with
    | none => .error .nameError
    | some ot =>
      let oldprice := pyStrip ot
      match computeDisc oldprice price with
      | .error e => .error e
      | .ok disc =>
        let item_colors := page.colorLabels.map pyStrip
        let entries := item_colors.map (fun c =>
          let pr := classifySizes c page.sizeOptions
          { productUrl := url
            itemName := item_name
            itemCode := none
            itemColor := c
            price := price
            originalPrice := oldprice
            discount := disc
            availableSizes := joinL ", " pr.1
            outOfStockSizes := joinL ", " pr.2 : Entry })
        let code := resolveItemCode page
        .ok (entries.map (fun e => { e with itemCode := code }))

/-! scrape_main_page, scrape.py lines 110 to 159. -/

/-- One anchor tag of the category page with an href attribute: the href
and the aria-label when present. -/
structure Anchor where
  href : String
  ariaLabel : Option String
  deriving Repr, DecidableEq

/-- Line 126 of scrape.py: does the href start with the collection path? -/
def collectionMatches (a : Anchor) : Bool :=
  pyStarts a.href "/collections/carhartt-wip/products/"

/-- The dict keys of an entry in construction order, which are also the
section-3 column names of the spec. -/
def fieldNames : List String :=
  ["Product URL", "Item Name", "Item Code", "Item Color", "Price",
   "Original Price", "Discount", "Available Sizes", "Out of Stock Sizes"]

/-- Columns of pandas.DataFrame built from a list of dicts that all share
the same keys in the same order: no columns at all when the list is empty,
the common keys otherwise. -/
def dfColumns : List Entry → List String
  | [] => []
  | _ :: _ => fieldNames

/-- Outcome of a completed run: the spreadsheet write of lines 149 to 159
was reached, with these DataFrame columns and data rows. -/
structure RunOutput where
  fileWritten : Bool
  columns : List String
  rows : List Entry
  deriving Repr, DecidableEq

/-- The anchor loop of scrape.py lines 124 to 144: every anchor whose href
starts with the collection path is scraped in order and the entry lists are
concatenated; an uncaught exception inside scrape_product_details aborts
the loop. -/
def processAnchors (f : String → Except Unit ProductPage) :
    List Anchor → Except PyError (List Entry)
  | [] => .ok []
  | a :: rest =>
    if collectionMatches a then
      match scrape_product_details (f (base_url ++ a.href)) (base_url ++ a.href)
          (a.ariaLabel.getD "Unknown Item Name") with
      | .error e => .error e
      | .ok es =>
        match processAnchors f rest with
        | .error e => .error e
        | .ok acc => .ok (es ++ acc)
    else processAnchors f rest

/-- scrape_main_page, scrape.py lines 110 to 159.  catFetch is the outcome
of fetching the category page; a RequestException there is caught by line
146 and the walk yields no entries, but the export code of lines 149 to 159
still runs, so a file is written whenever no uncaught exception escaped the
product loop. -/
def scrape_main_page (catFetch : Except Unit (List Anchor))
    (f : String → Except Unit ProductPage) : Except PyError RunOutput :=
  match catFetch with
  | .error _ => .ok ⟨true, dfColumns [], []⟩
  | .ok anchors =>
    match processAnchors f anchors with
    | .error e => .error e
    | .ok rows => .ok ⟨true, dfColumns rows, rows⟩

/-! Concrete inputs used by the claim witnesses and counterexamples. -/

/-- A representative product page: both price divs, one color, three size
options (one of another color, one out of stock), a description list whose
li matches the item-code pattern, no JSON-LD script. -/
def wpage : ProductPage :=
  ⟨some "AED. 100.00", some "AED. 200.00", ["Red"],
   ["Red / S", "Red / M (Out of stock)", "Blue / L"], some ["I123456_AB_CD"], none⟩

/-- The single entry that scrape_product_details produces for wpage. -/
def wentry : Entry :=
  { productUrl := "u", itemName := "n", itemCode := some "I123456_AB_CD",
    itemColor := "Red", price := some "AED. 100.00", originalPrice := "AED. 200.00",
    discount := "50.0", availableSizes := "S", outOfStockSizes := "M" }

/-- A product page whose HTML lacks the product-price--compare div. -/
def pageC1 : ProductPage := ⟨some "AED. 100.00", none, ["Red"], ["Red / S"], none, none⟩

/-- A well-priced product page on which no color-selector labels were
found. -/
def pageC2 : ProductPage := ⟨some "AED. 100.00", some "AED. 200.00", [], ["S"], none, none⟩

/-- A category page with one anchor that does not match the collection
path. -/
def anchorsC7 : List Anchor := [⟨"/about-us", some "About"⟩]

/-- A product link whose fetch fails. -/
def aFail : Anchor := ⟨"/collections/carhartt-wip/products/bad", some "Bad"⟩

/-- A product link whose fetch succeeds. -/
def aGood : Anchor := ⟨"/collections/carhartt-wip/products/good", some "Good"⟩

/-- A fetcher that fails on the bad product URL and returns wpage
elsewhere. -/
def fW : String → Except Unit ProductPage :=
  fun u =>
    if u = "https://americanrag.ae/collections/carhartt-wip/products/bad" then Except.error ()
    else Except.ok wpage

/-- A page whose description list yields an item code and whose JSON-LD
also names a Product sku: the list must win. -/
def pageA : ProductPage :=
  ⟨none, none, [], [], some ["I123456_AB_CD"], some (.objList [⟨some "Product", some "WRONG"⟩])⟩

/-- A page whose description list has no matching li, with a JSON-LD
Product sku to fall back to (behind a non-Product object). -/
def pageB : ProductPage :=
  ⟨none, none, [], [], some ["made of cotton"],
   some (.objList [⟨some "Offer", none⟩, ⟨some "Product", some "SKU9"⟩])⟩

/-- A page with neither a description list nor a JSON-LD script. -/
def pageC : ProductPage := ⟨none, none, [], [], none, none⟩

/-- A page whose only description li is a code with a lowercase letter in
its first token, plus a JSON-LD Product sku to fall through to. -/
def pageLow : ProductPage :=
  ⟨none, none, [], [], some ["I123456_Ab_CD"], some (.objList [⟨some "Product", some "FB1"⟩])⟩

/-! Helper lemmas. -/

theorem uint32LeIff (a b : UInt32) : a ≤ b ↔ a.toNat ≤ b.toNat := by
  rw [UInt32.le_def, BitVec.le_def]
  rfl

theorem lower_not_upper (c : Char) (h : c.isLower = true) : c.isUpper = false := by
  simp only [Char.isLower, Char.isUpper, Bool.and_eq_true, decide_eq_true_eq] at h ⊢
  rcases h with ⟨h1, _⟩
  rw [ge_iff_le, uint32LeIff] at h1
  rw [Bool.and_eq_false_iff]
  right
  simp only [decide_eq_false_iff_not]
  intro hc
  rw [uint32LeIff] at hc
  have e1 : (97 : UInt32).toNat = 97 := rfl
  have e2 : (90 : UInt32).toNat = 90 := rfl
  omega

theorem lower_not_digit (c : Char) (h : c.isLower = true) : c.isDigit = false := by
  simp only [Char.isLower, Char.isDigit, Bool.and_eq_true, decide_eq_true_eq] at h ⊢
  rcases h with ⟨h1, _⟩
  rw [ge_iff_le, uint32LeIff] at h1
  rw [Bool.and_eq_false_iff]
  right
  simp only [decide_eq_false_iff_not]
  intro hc
  rw [uint32LeIff] at hc
  have e1 : (97 : UInt32).toNat = 97 := rfl
  have e2 : (57 : UInt32).toNat = 57 := rfl
  omega

theorem lower_not_upperDigit (c : Char) (h : c.isLower = true) : upperDigit c = false := by
  simp [upperDigit, lower_not_upper c h, lower_not_digit c h]

theorem alphanum_word (c : Char) (h : c.isAlphanum = true) : isWordChar c = true := by
  simp [isWordChar, h]

theorem digit_word (c : Char) (h : c.isDigit = true) : isWordChar c = true := by
  apply alphanum_word
  simp [Char.isAlphanum, h]

theorem alphanum_ne_underscore (c : Char) (h : c.isAlphanum = true) : c ≠ '_' := by
  intro he
  rw [he] at h
  exact absurd h (by decide)

theorem filter_bool_length {α : Type} (l : List α) (p : α → Bool) :
    (l.filter (fun s => !(p s))).length + (l.filter p).length = l.length := by
  induction l with
  | nil => simp
  | cons x xs ih =>
    by_cases h : p x = true
    · simp only [List.filter_cons, h]
      simp only [Bool.not_true, Bool.false_eq_true, if_false, if_true, List.length_cons]
      omega
    · rw [Bool.not_eq_true] at h
      simp only [List.filter_cons, h]
      simp only [Bool.not_false, Bool.false_eq_true, if_false, if_true, List.length_cons]
      omega

theorem classifySizes_filter (c : String) (opts : List String) :
    (classifySizes c opts).1 =
      (((opts.map pyStrip).filter (fun s => pyIn c s)).filter
        (fun s => !(processSize c s).2)).map (fun s => (processSize c s).1)
    ∧ (classifySizes c opts).2 =
      (((opts.map pyStrip).filter (fun s => pyIn c s)).filter
        (fun s => (processSize c s).2)).map (fun s => (processSize c s).1) := by
  induction opts with
  | nil => exact ⟨rfl, rfl⟩
  | cons opt rest ih =>
    rcases ih with ⟨ih1, ih2⟩
    by_cases h : pyIn c (pyStrip opt) = true
    · by_cases h2 : (processSize c (pyStrip opt)).2 = true
      · constructor
        · simp [classifySizes, List.filter_cons, h, h2, ih1]
        · simp [classifySizes, List.filter_cons, h, h2, ih2]
      · rw [Bool.not_eq_true] at h2
        constructor
        · simp [classifySizes, List.filter_cons, h, h2, ih1]
        · simp [classifySizes, List.filter_cons, h, h2, ih2]
    · rw [Bool.not_eq_true] at h
      constructor
      · simp [classifySizes, List.filter_cons, h, ih1]
      · simp [classifySizes, List.filter_cons, h, ih2]

theorem scrape_ok_entries (page : ProductPage) (url name : String) (es : List Entry)
    (hok : scrape_product_details (.ok page) url name = .ok es) :
    ∃ oldp disc, computeDisc oldp (page.priceDiv.map pyStrip) = .ok disc ∧
      page.compareDiv.map pyStrip = some oldp ∧
      es = (page.colorLabels.map pyStrip).map (fun c =>
        { productUrl := url
          itemName := name
          itemCode := resolveItemCode page
          itemColor := c
          price := page.priceDiv.map pyStrip
          originalPrice := oldp
          discount := disc
          availableSizes := joinL ", " (classifySizes c page.sizeOptions).1
          outOfStockSizes := joinL ", " (classifySizes c page.sizeOptions).2 : Entry }) := by
  simp only [scrape_product_details] at hok
  cases hcmp : page.compareDiv with
  | none => rw [hcmp] at hok; exact absurd hok (by simp)
  | some ot =>
    rw [hcmp] at hok
    simp only at hok
    cases hdisc : computeDisc (pyStrip ot) (page.priceDiv.map pyStrip) with
    | error e => rw [hdisc] at hok; exact absurd hok (by simp)
    | ok disc =>
      rw [hdisc] at hok
      simp only [Except.ok.injEq] at hok
      refine ⟨pyStrip ot, disc, hdisc, rfl, ?_⟩
      rw [← hok, List.map_map]
      rfl

theorem searchCode_of_word (cs : List Char) : ∀ p, isWordChar p = true →
    (∀ c ∈ cs, isWordChar c = true) → searchCode (some p) cs = false := by
  induction cs with
  | nil => intro p _ _; rfl
  | cons c cs ih =>
    intro p hp hall
    have hc : isWordChar c = true := hall c (List.mem_cons_self c cs)
    simp only [searchCode, hp, Bool.not_true, Bool.false_and, Bool.false_or]
    exact ih c hc (fun x hx => hall x (List.mem_cons_of_mem c hx))

theorem searchCode_none_head (c : Char) (cs : List Char)
    (h : ∀ x ∈ cs, isWordChar x = true) (hc : isWordChar c = true) :
    searchCode none (c :: cs) = matchCodeAt (c :: cs) := by
  simp only [searchCode, Bool.true_and]
  rw [searchCode_of_word cs c hc h]
  simp

theorem matchCodeAt_lower_false (ds t1 t2 : List Char)
    (hlen : ds.length = 6) (hds : ∀ c ∈ ds, c.isDigit = true)
    (h1 : ∀ c ∈ t1, c.isAlphanum = true)
    (h2 : ∀ c ∈ t2, c.isAlphanum = true)
    (hlow : (∃ c ∈ t1, c.isLower = true) ∨ (∃ c ∈ t2, c.isLower = true)) :
    matchCodeAt ('I' :: (ds ++ '_' :: (t1 ++ '_' :: t2))) = false := by
  have hds6 : (ds ++ '_' :: (t1 ++ '_' :: t2)).take 6 = ds := List.take_left' hlen
  have hdd : (ds ++ '_' :: (t1 ++ '_' :: t2)).drop 6 = '_' :: (t1 ++ '_' :: t2) :=
    List.drop_left' hlen
  have e1 : afterDigits (ds ++ '_' :: (t1 ++ '_' :: t2)) = some ('_' :: (t1 ++ '_' :: t2)) := by
    simp only [afterDigits, hds6, hdd, hlen]
    simp [List.all_eq_true.mpr hds]
  have e2 : afterUnderscore ('_' :: (t1 ++ '_' :: t2)) = some (t1 ++ '_' :: t2) := by
    simp [afterUnderscore]
  simp only [matchCodeAt, e1, e2, if_true]
  by_cases hte : ((t1 ++ '_' :: t2).takeWhile upperDigit).isEmpty = true
  · have e3 : afterToken (t1 ++ '_' :: t2) = none := by
      simp only [afterToken]
      rw [if_pos hte]
    simp [e3]
  · have e3 : afterToken (t1 ++ '_' :: t2) = some ((t1 ++ '_' :: t2).dropWhile upperDigit) := by
      simp only [afterToken]
      rw [if_neg hte]
    simp only [e3]
    by_cases hA : ∀ x ∈ t1, upperDigit x = true
    · -- the first token is all capitals and digits, so the lowercase letter is in t2
      have hlow2 : ∃ c ∈ t2, c.isLower = true := by
        rcases hlow with h | h
        · rcases h with ⟨c, hc, hcl⟩
          exact absurd (hA c hc) (by rw [lower_not_upperDigit c hcl]; simp)
        · exact h
      have hu : upperDigit '_' = false := by decide
      have hdw : (t1 ++ '_' :: t2).dropWhile upperDigit = '_' :: t2 := by
        rw [List.dropWhile_append_of_pos hA, List.dropWhile_cons]
        simp [hu]
      have e4 : afterUnderscore ('_' :: t2) = some t2 := by
        simp [afterUnderscore]
      rw [hdw]
      simp only [e4]
      by_cases hte2 : (t2.takeWhile upperDigit).isEmpty = true
      · have e5 : afterToken t2 = none := by
          simp only [afterToken]
          rw [if_pos hte2]
        simp [e5]
      · have e5 : afterToken t2 = some (t2.dropWhile upperDigit) := by
          simp only [afterToken]
          rw [if_neg hte2]
        simp only [e5]
        have hne : t2.dropWhile upperDigit ≠ [] := by
          intro hnil
          rcases hlow2 with ⟨c, hc, hcl⟩
          have := List.dropWhile_eq_nil_iff.mp hnil c hc
          rw [lower_not_upperDigit c hcl] at this
          exact absurd this (by simp)
        cases hdwe : t2.dropWhile upperDigit with
        | nil => exact absurd hdwe hne
        | cons c0 r0 =>
          have hc0 : isWordChar c0 = true := by
            apply alphanum_word
            apply h2
            have hsub := (List.dropWhile_suffix (l := t2) upperDigit).subset
            rw [hdwe] at hsub
            exact hsub (List.mem_cons_self c0 r0)
          simp [boundaryAfter, hc0]
    · -- the first token itself contains a character outside the class
      push_neg at hA
      rcases hA with ⟨c0, hc0m, hc0⟩
      simp only [ne_eq, Bool.not_eq_true] at hc0
      have hne : t1.dropWhile upperDigit ≠ [] := by
        intro hnil
        have := List.dropWhile_eq_nil_iff.mp hnil c0 hc0m
        rw [hc0] at this
        exact absurd this (by simp)
      cases hdwe : t1.dropWhile upperDigit with
      | nil => exact absurd hdwe hne
      | cons ch r0 =>
        have hchm : ch ∈ t1 := by
          have hsub := (List.dropWhile_suffix (l := t1) upperDigit).subset
          rw [hdwe] at hsub
          exact hsub (List.mem_cons_self ch r0)
        have hchu : ch ≠ '_' := alphanum_ne_underscore ch (h1 ch hchm)
        have hdw : (t1 ++ '_' :: t2).dropWhile upperDigit = ch :: (r0 ++ '_' :: t2) := by
          rw [List.dropWhile_append]
          simp [hdwe]
        rw [hdw]
        simp [afterUnderscore, hchu]

theorem matchesItemCode_lower_false (ds t1 t2 : String)
    (hlen : ds.data.length = 6) (hds : ∀ c ∈ ds.data, c.isDigit = true)
    (h1 : ∀ c ∈ t1.data, c.isAlphanum = true)
    (h2 : ∀ c ∈ t2.data, c.isAlphanum = true)
    (hlow : (∃ c ∈ t1.data, c.isLower = true) ∨ (∃ c ∈ t2.data, c.isLower = true)) :
    matchesItemCode ("I" ++ ds ++ "_" ++ t1 ++ "_" ++ t2) = false := by
  have hdata : ("I" ++ ds ++ "_" ++ t1 ++ "_" ++ t2).data =
      'I' :: (ds.data ++ '_' :: (t1.data ++ '_' :: t2.data)) := by
    simp only [String.data_append]
    simp
  have hword : ∀ x ∈ ds.data ++ '_' :: (t1.data ++ '_' :: t2.data), isWordChar x = true := by
    intro x hx
    rcases List.mem_append.mp hx with h | h
    · exact digit_word x (hds x h)
    · rcases List.mem_cons.mp h with h | h
      · rw [h]; decide
      · rcases List.mem_append.mp h with h | h
        · exact alphanum_word x (h1 x h)
        · rcases List.mem_cons.mp h with h | h
          · rw [h]; decide
          · exact alphanum_word x (h2 x h)
  rw [matchesItemCode, hdata, searchCode_none_head _ _ hword (by decide)]
  exact matchCodeAt_lower_false ds.data t1.data t2.data hlen hds h1 h2 hlow

theorem processAnchors_skip (f : String → Except Unit ProductPage) (a : Anchor)
    (hfail : f (base_url ++ a.href) = .error ()) :
    ∀ pre post : List Anchor,
      processAnchors f (pre ++ a :: post) = processAnchors f (pre ++ post) := by
  intro pre
  induction pre with
  | nil =>
    intro post
    simp only [List.nil_append, processAnchors]
    by_cases hm : collectionMatches a = true
    · rw [if_pos hm, hfail]
      show (match processAnchors f post with
        | Except.error e => Except.error e
        | Except.ok acc => Except.ok ([] ++ acc)) = processAnchors f post
      cases processAnchors f post with
      | error e => rfl
      | ok acc => simp
    · rw [if_neg hm]
  | cons b pre ih =>
    intro post
    simp only [List.cons_append, processAnchors, List.append_eq]
    by_cases hm : collectionMatches b = true
    · rw [if_pos hm, if_pos hm, ih post]
    · rw [if_neg hm, if_neg hm]
      exact ih post

theorem processAnchors_no_match (f : String → Except Unit ProductPage)
    (anchors : List Anchor) (h : ∀ a ∈ anchors, collectionMatches a = false) :
    processAnchors f anchors = Except.ok [] := by
  induction anchors with
  | nil => rfl
  | cons a rest ih =>
    have ha := h a (List.mem_cons_self a rest)
    simp only [processAnchors]
    rw [if_neg (by simp [ha])]
    exact ih (fun x hx => h x (List.mem_cons_of_mem a hx))

/-! Claim theorems. -/

/-- Claim C1, code evidence: on a product page whose HTML lacks a
product-price--compare element, the discount computation of
scrape_product_details raises (NameError on the undefined lowercase name at
line 30 of scrape.py) instead of treating the original price as absent, and
no records are produced.  The claim asserts the opposite, so this is a bug
of the code relative to the documented intent. -/
theorem c1_missing_compare_raises :
    scrape_product_details (Except.ok pageC1) "u" "Item" = Except.error PyError.nameError := rfl

/-- Claim C2, counterexample: a product page with no color-selector labels
yields zero records, not exactly one as claimed. -/
theorem c2_counterexample :
    (scrape_product_details (Except.ok pageC2) "u" "n").map List.length = Except.ok 0 ∧
      (0 : Nat) ≠ 1 :=
  ⟨rfl, by decide⟩

/-- Claim C2 as amended: whenever extraction succeeds on a page in which no
color-selector labels are found, it yields exactly zero records (the record
loop emits one record per discovered color). -/
theorem c2_no_colors_no_records (page : ProductPage) (url name : String) (es : List Entry)
    (hc : page.colorLabels = [])
    (hok : scrape_product_details (Except.ok page) url name = Except.ok es) :
    es = [] := by
  rcases scrape_ok_entries page url name es hok with ⟨oldp, disc, _, _, hes⟩
  rw [hes, hc]
  rfl

/-- Claim C2 witness: the amended statement instantiated at pageC2. -/
theorem c2_no_colors_no_records_witness :
    pageC2.colorLabels = [] ∧
      scrape_product_details (Except.ok pageC2) "u" "n" = Except.ok [] ∧
      ([] : List Entry) = [] :=
  ⟨rfl, rfl, c2_no_colors_no_records pageC2 "u" "n" [] rfl rfl⟩

/-- Claim C3, counterexample: when fetching the category page fails, the
run still reaches the spreadsheet write (the except clause at line 146 of
scrape.py only prints, and lines 149 to 159 run unconditionally), so an
output file is produced, contrary to the claim that none is. -/
theorem c3_counterexample :
    (scrape_main_page (Except.error ()) (fun _ => Except.error ())).map RunOutput.fileWritten =
      Except.ok true := rfl

/-- Claim C3 as amended: a transport failure on the category page is caught
and logged; no products are processed (zero records), but the run completes
and writes an output file with zero data rows and no columns. -/
theorem c3_category_failure_still_writes (f : String → Except Unit ProductPage) :
    scrape_main_page (Except.error ()) f = Except.ok ⟨true, [], []⟩ := rfl

/-- Claim C4: for every record produced by product extraction, the record's
two size fields are exactly the joined classification lists of its color,
and those lists partition the stripped size options that mention the color:
each such option contributes its processed label to exactly one of the two
lists, in page order, with none lost. -/
theorem c4_sizes_partition (page : ProductPage) (url name : String) (es : List Entry)
    (hok : scrape_product_details (Except.ok page) url name = Except.ok es)
    (e : Entry) (he : e ∈ es) :
    e.availableSizes = joinL ", " (classifySizes e.itemColor page.sizeOptions).1 ∧
    e.outOfStockSizes = joinL ", " (classifySizes e.itemColor page.sizeOptions).2 ∧
    (classifySizes e.itemColor page.sizeOptions).1 =
      (((page.sizeOptions.map pyStrip).filter (fun s => pyIn e.itemColor s)).filter
        (fun s => !(processSize e.itemColor s).2)).map (fun s => (processSize e.itemColor s).1) ∧
    (classifySizes e.itemColor page.sizeOptions).2 =
      (((page.sizeOptions.map pyStrip).filter (fun s => pyIn e.itemColor s)).filter
        (fun s => (processSize e.itemColor s).2)).map (fun s => (processSize e.itemColor s).1) ∧
    (classifySizes e.itemColor page.sizeOptions).1.length +
        (classifySizes e.itemColor page.sizeOptions).2.length =
      ((page.sizeOptions.map pyStrip).filter (fun s => pyIn e.itemColor s)).length := by
  rcases scrape_ok_entries page url name es hok with ⟨oldp, disc, _, _, hes⟩
  subst hes
  rcases List.mem_map.mp he with ⟨c, _, hec⟩
  subst hec
  refine ⟨rfl, rfl, (classifySizes_filter c page.sizeOptions).1,
    (classifySizes_filter c page.sizeOptions).2, ?_⟩
  rw [(classifySizes_filter c page.sizeOptions).1, (classifySizes_filter c page.sizeOptions).2,
    List.length_map, List.length_map]
  exact filter_bool_length _ _

/-- Claim C4 witness: the partition statement instantiated at wpage and its
record. -/
theorem c4_sizes_partition_witness :
    wentry.availableSizes = joinL ", " (classifySizes wentry.itemColor wpage.sizeOptions).1 ∧
    wentry.outOfStockSizes = joinL ", " (classifySizes wentry.itemColor wpage.sizeOptions).2 ∧
    (classifySizes wentry.itemColor wpage.sizeOptions).1 =
      (((wpage.sizeOptions.map pyStrip).filter (fun s => pyIn wentry.itemColor s)).filter
        (fun s => !(processSize wentry.itemColor s).2)).map
        (fun s => (processSize wentry.itemColor s).1) ∧
    (classifySizes wentry.itemColor wpage.sizeOptions).2 =
      (((wpage.sizeOptions.map pyStrip).filter (fun s => pyIn wentry.itemColor s)).filter
        (fun s => (processSize wentry.itemColor s).2)).map
        (fun s => (processSize wentry.itemColor s).1) ∧
    (classifySizes wentry.itemColor wpage.sizeOptions).1.length +
        (classifySizes wentry.itemColor wpage.sizeOptions).2.length =
      ((wpage.sizeOptions.map pyStrip).filter (fun s => pyIn wentry.itemColor s)).length :=
  c4_sizes_partition wpage "u" "n" [wentry] rfl wentry (List.mem_singleton.mpr rfl)

/-- Claim C5: every record returned for a product carries the resolved item
code of that product's page (the back-fill loop of scrape.py lines 101 to
103), hence all color-variant records share the same Item Code. -/
theorem c5_item_code_uniform (page : ProductPage) (url name : String) (es : List Entry)
    (hok : scrape_product_details (Except.ok page) url name = Except.ok es)
    (e : Entry) (he : e ∈ es) :
    e.itemCode = resolveItemCode page := by
  rcases scrape_ok_entries page url name es hok with ⟨oldp, disc, _, _, hes⟩
  subst hes
  rcases List.mem_map.mp he with ⟨c, _, hec⟩
  subst hec
  rfl

/-- Claim C5 witness: the back-fill statement instantiated at wpage. -/
theorem c5_item_code_uniform_witness : wentry.itemCode = resolveItemCode wpage :=
  c5_item_code_uniform wpage "u" "n" [wentry] rfl wentry (List.mem_singleton.mpr rfl)

/-- Claim C6: a transport failure fetching one product page is caught
per-URL: the failed product contributes zero records and no exception, and
the category walk is unchanged except for that product, so every later
product link is still fetched and extracted. -/
theorem c6_per_url_failure (u iname : String) (pre post : List Anchor) (a : Anchor)
    (f : String → Except Unit ProductPage)
    (hfail : f (base_url ++ a.href) = Except.error ()) :
    scrape_product_details (Except.error ()) u iname = Except.ok [] ∧
    scrape_main_page (Except.ok (pre ++ a :: post)) f =
      scrape_main_page (Except.ok (pre ++ post)) f := by
  refine ⟨rfl, ?_⟩
  simp only [scrape_main_page]
  rw [processAnchors_skip f a hfail pre post]

/-- Claim C6 witness: the per-URL statement instantiated at a failing link
followed by a working one. -/
theorem c6_per_url_failure_witness :
    fW (base_url ++ aFail.href) = Except.error () ∧
    (scrape_product_details (Except.error ()) "u" "n" = Except.ok [] ∧
      scrape_main_page (Except.ok ([] ++ aFail :: [aGood])) fW =
        scrape_main_page (Except.ok ([] ++ [aGood])) fW) :=
  ⟨rfl, c6_per_url_failure "u" "n" [] [aGood] aFail fW rfl⟩

/-- Claim C7, counterexample: with zero matching product links the run does
write a file, but its DataFrame has no columns at all, not the section-3
headers the claim asserts. -/
theorem c7_counterexample :
    (scrape_main_page (Except.ok anchorsC7) (fun _ => Except.error ())).map RunOutput.columns =
      Except.ok [] ∧ fieldNames ≠ [] :=
  ⟨rfl, by decide⟩

/-- Claim C7 as amended: for a category page with zero matching links the
run completes and writes an output file with zero data rows and no column
headers (pandas derives columns from the records, and there are none). -/
theorem c7_no_links_headerless_empty_file (anchors : List Anchor)
    (f : String → Except Unit ProductPage)
    (h : ∀ a ∈ anchors, collectionMatches a = false) :
    scrape_main_page (Except.ok anchors) f = Except.ok ⟨true, [], []⟩ := by
  simp only [scrape_main_page]
  rw [processAnchors_no_match f anchors h]
  rfl

/-- Claim C7 witness: the amended statement instantiated at a category page
with one non-matching anchor. -/
theorem c7_no_links_headerless_empty_file_witness :
    scrape_main_page (Except.ok anchorsC7) (fun _ => Except.error ()) =
      Except.ok ⟨true, [], []⟩ :=
  c7_no_links_headerless_empty_file anchorsC7 (fun _ => Except.error ()) (by decide)

/-- Claim C8: item-code resolution consults the description list first: a
non-falsy list result is returned unchanged; when the list yields nothing
the JSON-LD assignment (sku of the first object of type Product in a list),
when one happens, provides the code; and when both sources are absent the
code is None, with no error raised (resolution is total). -/
theorem c8_resolution_order (page : ProductPage) :
    (∀ c, listItemCode page = some c → c ≠ "" → resolveItemCode page = some c) ∧
    (listItemCode page = none →
      resolveItemCode page = (jsonLdSku page.jsonLd).getD none) ∧
    (page.descriptionItems = none → page.jsonLd = none → resolveItemCode page = none) := by
  refine ⟨?_, ?_, ?_⟩
  · intro c hc hne
    have hemp : c.isEmpty = false := by
      rw [Bool.eq_false_iff]
      intro h
      exact hne ((String.isEmpty_iff c).mp h)
    simp [resolveItemCode, hc, isFalsy, hemp]
  · intro hc
    simp [resolveItemCode, hc, isFalsy]
  · intro hd hj
    simp [resolveItemCode, listItemCode, hd, isFalsy, jsonLdSku, hj]

/-- Claim C8 witness: the three resolution scenarios instantiated at
concrete pages: list wins over JSON-LD, JSON-LD fallback used, both absent
yields none. -/
theorem c8_resolution_order_witness :
    resolveItemCode pageA = some "I123456_AB_CD" ∧
    resolveItemCode pageB = some "SKU9" ∧
    resolveItemCode pageC = none := by
  refine ⟨(c8_resolution_order pageA).1 "I123456_AB_CD" rfl (by decide), ?_,
    (c8_resolution_order pageC).2.2 rfl rfl⟩
  have h := (c8_resolution_order pageB).2.1 rfl
  rw [h]
  rfl

/-- Claim C9: with current-price text AED. 100.00 and compare-at text
AED. 200.00, the computed Discount string is 50.0, both as the value of
computeDisc and on the records that scrape_product_details emits. -/
theorem c9_discount_fifty :
    computeDisc "AED. 200.00" (some "AED. 100.00") = Except.ok "50.0" ∧
    (scrape_product_details (Except.ok wpage) "u" "n").map (List.map Entry.discount) =
      Except.ok ["50.0"] :=
  ⟨rfl, rfl⟩

/-- Claim C10: the description-list search matches only codes whose two
trailing tokens are capitals and digits: a code of the item shape whose
tokens contain a lowercase letter never matches, and a description list
made of such items leaves the list resolver empty, so resolution falls
through to the JSON-LD fallback. -/
theorem c10_lowercase_no_match (ds t1 t2 : String)
    (hlen : ds.data.length = 6) (hds : ∀ c ∈ ds.data, c.isDigit = true)
    (h1 : ∀ c ∈ t1.data, c.isAlphanum = true) (_h1n : t1.data ≠ [])
    (h2 : ∀ c ∈ t2.data, c.isAlphanum = true) (_h2n : t2.data ≠ [])
    (hlow : (∃ c ∈ t1.data, c.isLower = true) ∨ (∃ c ∈ t2.data, c.isLower = true)) :
    matchesItemCode ("I" ++ ds ++ "_" ++ t1 ++ "_" ++ t2) = false ∧
    ∀ (page : ProductPage) (items : List String),
      page.descriptionItems = some items →
      (∀ i ∈ items, i = "I" ++ ds ++ "_" ++ t1 ++ "_" ++ t2) →
      resolveItemCode page = (jsonLdSku page.jsonLd).getD none := by
  have hm := matchesItemCode_lower_false ds t1 t2 hlen hds h1 h2 hlow
  refine ⟨hm, ?_⟩
  intro page items hd hall
  have hfind : items.find? (fun s => matchesItemCode s) = none := by
    rw [List.find?_eq_none]
    intro x hx
    rw [hall x hx, hm]
    simp
  have hlist : listItemCode page = none := by
    simp [listItemCode, hd, hfind]
  simp [resolveItemCode, hlist, isFalsy]

/-- Claim C10 witness: the lowercase code I123456_Ab_CD never matches, and
on a page whose description list holds only that item, resolution falls
through to the JSON-LD Product sku. -/
theorem c10_lowercase_no_match_witness :
    matchesItemCode "I123456_Ab_CD" = false ∧
    resolveItemCode pageLow = (jsonLdSku pageLow.jsonLd).getD none := by
  have h := c10_lowercase_no_match "123456" "Ab" "CD" (by decide) (by decide)
    (by decide) (by decide) (by decide) (by decide) (Or.inl (by decide))
  exact ⟨h.1, h.2 pageLow ["I123456_Ab_CD"] rfl (by decide)⟩

end Scrape
